import Mathlib

/-!
Verification of the example notebook `examples/4_scikit_learn_compatibility.ipynb`
(a straight-line script demonstrating PySINDy together with scikit-learn).

The notebook is embedded at two levels:

1. a statement-level model (`notebookStmts`): every top-level statement of the
   notebook in order, with the variables it reads, the single variable it
   writes (if any), the cell it lives in, its kind (import, warning
   suppression, data generation, model construction, search construction,
   fit call, print, ...), and whether it prints; plus a small sequential
   dataflow semantics (`runFrom`) and a taint checker (`checkNI2`) with a
   soundness theorem, used to prove non-interference facts about unused
   variables;

2. exact-rational models of the numerical values the notebook builds:
   `arange` (numpy's arange over ℚ), the Lorenz right-hand side, a
   `solve_ivp` evaluator returning one state per requested evaluation time,
   and the concrete `t_train`, `x_train`, `t_test`, `x_test` of the notebook;
   and the `SINDyCV` wrapper methods as argument-forwarding functions over an
   abstract parent implementation.
-/

/-! ## Statement-level model of the notebook -/

/-- Warning categories passed to `warnings.filterwarnings` in the setup cell. -/
inductive WarnCat
  | user
  | future
deriving DecidableEq

/-- The class of a model object constructed in the notebook: `ps.SINDy` or the
`SINDyCV` subclass defined in cell 12. -/
inductive ModelClass
  | sindy
  | sindyCV
deriving DecidableEq

/-- Cross-validation splitters constructed in the notebook.  `shuffleSplit`
carries `n_splits`, `test_size` and the `random_state` argument; the notebook
constructs it as `ShuffleSplit(n_splits=3, test_size=0.25)`, i.e. with
`random_state` left at `None`. -/
inductive Splitter
  | timeSeriesSplit (nSplits : Nat)
  | shuffleSplit (nSplits : Nat) (testSize : ℚ) (randomState : Option Nat)
deriving DecidableEq

/-- Kinds of statements.  The constructors after `noOp` (exception handling,
retries, thread/process creation, async suspension, locking, caches,
protocols) never occur in `notebookStmts`; they are present so that the
absence checks of the error-handling and concurrency claims are stated over a
kind language that could express those constructs. -/
inductive SKind
  | importLib
  | suppressWarning (c : WarnCat)
  | dataGen
  | modelConstruct (cls : ModelClass) (tDefaultArg : Option ℚ)
  | configAssign
  | classDef
  | searchConstruct (cv : Splitter)
  | fitCall
  | differentiateCall
  | printParams
  | printEquations
  | noOp
  | tryExcept
  | retryLoop
  | threadCreate
  | processCreate
  | asyncSuspend
  | lockAcquire
  | cacheOp
  | protocolOp
deriving DecidableEq

/-- One top-level statement of the notebook: a short description, the index of
the code cell it belongs to, the variables it reads, the variable it writes
(also used for a mutated receiver, e.g. `search.fit` reads and writes
`search`), its kind, and whether it prints output. -/
structure Stmt where
  desc : String
  cell : Nat
  reads : List String
  writeVar : Option String
  kind : SKind
  prints : Bool
deriving DecidableEq

/-- The timestep `dt = .002` of the notebook, as an exact rational (1/500 in
lowest terms, written as a raw normalized rational so that it reduces in the
kernel). -/
def dt : ℚ := ⟨1, 500, by norm_num, Nat.coprime_one_left 500⟩

/-- The `test_size=0.25` of the notebook's ShuffleSplit, as an exact rational
(1/4 in lowest terms, written as a raw normalized rational). -/
def testSizeQuarter : ℚ := ⟨1, 4, by norm_num, Nat.coprime_one_left 4⟩

/-- The notebook, statement by statement, in execution order.  Code cells are
numbered 0..7 in the order they appear (cell 0 is the setup cell, cell 1 the
data-generation cell, cells 2 and 3 the TimeSeriesSplit searches, cell 4 the
`SINDyCV` class definition, cell 5 the ShuffleSplit search, cells 6 and 7 the
ElasticNet and OrthogonalMatchingPursuit fits). -/
def notebookStmts : List Stmt := [
  -- cell 0: setup
  ⟨"import numpy as np", 0, [], some "np", .importLib, false⟩,
  ⟨"from scipy.integrate import solve_ivp", 0, [], some "solve_ivp", .importLib, false⟩,
  ⟨"from pysindy.utils import lorenz", 0, [], some "lorenz", .importLib, false⟩,
  ⟨"import pysindy as ps", 0, [], some "ps", .importLib, false⟩,
  ⟨"import warnings", 0, [], some "warnings", .importLib, false⟩,
  ⟨"warnings.filterwarnings ignore UserWarning", 0, ["warnings"], none,
    .suppressWarning .user, false⟩,
  ⟨"warnings.filterwarnings ignore FutureWarning", 0, ["warnings"], none,
    .suppressWarning .future, false⟩,
  ⟨"integrator_keywords = empty dict", 0, [], some "integrator_keywords", .configAssign, false⟩,
  ⟨"integrator_keywords rtol = 1e-15", 0, ["integrator_keywords"],
    some "integrator_keywords", .configAssign, false⟩,
  ⟨"integrator_keywords method = LSODA", 0, ["integrator_keywords"],
    some "integrator_keywords", .configAssign, false⟩,
  ⟨"integrator_keywords atol = 1e-10", 0, ["integrator_keywords"],
    some "integrator_keywords", .configAssign, false⟩,
  -- cell 1: training and test data generation
  ⟨"dt = .002", 1, [], some "dt", .dataGen, false⟩,
  ⟨"t_train = np.arange(0, 10, dt)", 1, ["np", "dt"], some "t_train", .dataGen, false⟩,
  ⟨"t_train_span = (t_train[0], t_train[-1])", 1, ["t_train"], some "t_train_span",
    .dataGen, false⟩,
  ⟨"x0_train = [-8, 8, 27]", 1, [], some "x0_train", .dataGen, false⟩,
  ⟨"x_train = solve_ivp(lorenz, t_train_span, x0_train, t_eval=t_train).y.T", 1,
    ["solve_ivp", "lorenz", "t_train_span", "x0_train", "t_train", "integrator_keywords"],
    some "x_train", .dataGen, false⟩,
  ⟨"t_test = np.arange(0, 15, dt)", 1, ["np", "dt"], some "t_test", .dataGen, false⟩,
  ⟨"t_test_span = (t_test[0], t_test[-1])", 1, ["t_test"], some "t_test_span",
    .dataGen, false⟩,
  ⟨"x0_test = np.array([8, 7, 15])", 1, ["np"], some "x0_test", .dataGen, false⟩,
  ⟨"x_test = solve_ivp(lorenz, t_test_span, x0_test, t_eval=t_test).y.T", 1,
    ["solve_ivp", "lorenz", "t_test_span", "x0_test", "t_test", "integrator_keywords"],
    some "x_test", .dataGen, false⟩,
  -- cell 2: cross-validation with TimeSeriesSplit
  ⟨"from sklearn.model_selection import GridSearchCV", 2, [], some "GridSearchCV",
    .importLib, false⟩,
  ⟨"from sklearn.model_selection import TimeSeriesSplit", 2, [], some "TimeSeriesSplit",
    .importLib, false⟩,
  ⟨"model = ps.SINDy(t_default=dt)", 2, ["ps", "dt"], some "model",
    .modelConstruct .sindy (some dt), false⟩,
  ⟨"param_grid: threshold, alpha, feature_library, order", 2, ["ps"], some "param_grid",
    .configAssign, false⟩,
  ⟨"search = GridSearchCV(model, param_grid, cv=TimeSeriesSplit(n_splits=5))", 2,
    ["GridSearchCV", "TimeSeriesSplit", "model", "param_grid"], some "search",
    .searchConstruct (.timeSeriesSplit 5), false⟩,
  ⟨"search.fit(x_train)", 2, ["search", "x_train"], some "search", .fitCall, false⟩,
  ⟨"print best parameters", 2, ["search"], none, .printParams, true⟩,
  ⟨"search.best_estimator_.print()", 2, ["search"], none, .printEquations, true⟩,
  -- cell 3: cross-validation with TimeSeriesSplit and SINDyDerivative
  ⟨"model = ps.SINDy(t_default=dt, differentiation_method=ps.SINDyDerivative(spline))", 3,
    ["ps", "dt"], some "model", .modelConstruct .sindy (some dt), false⟩,
  ⟨"param_grid: threshold, differentiation kwargs", 3, [], some "param_grid",
    .configAssign, false⟩,
  ⟨"search = GridSearchCV(model, param_grid, cv=TimeSeriesSplit(n_splits=5))", 3,
    ["GridSearchCV", "TimeSeriesSplit", "model", "param_grid"], some "search",
    .searchConstruct (.timeSeriesSplit 5), false⟩,
  ⟨"search.fit(x_train)", 3, ["search", "x_train"], some "search", .fitCall, false⟩,
  ⟨"print best parameters", 3, ["search"], none, .printParams, true⟩,
  ⟨"search.best_estimator_.print()", 3, ["search"], none, .printEquations, true⟩,
  -- cell 4: the SINDyCV wrapper class
  ⟨"from sklearn.metrics import r2_score", 4, [], some "r2_score", .importLib, false⟩,
  ⟨"class SINDyCV(ps.SINDy)", 4, ["ps", "r2_score"], some "SINDyCV", .classDef, false⟩,
  -- cell 5: cross-validation with ShuffleSplit
  ⟨"from sklearn.model_selection import ShuffleSplit", 5, [], some "ShuffleSplit",
    .importLib, false⟩,
  ⟨"model = SINDyCV()", 5, ["SINDyCV"], some "model", .modelConstruct .sindyCV none, false⟩,
  ⟨"x_dot = model.differentiate(x_train, t=t_train)", 5, ["model", "x_train", "t_train"],
    some "x_dot", .differentiateCall, false⟩,
  ⟨"param_grid: threshold, alpha, degree", 5, [], some "param_grid", .configAssign, false⟩,
  ⟨"search = GridSearchCV(model, param_grid, cv=ShuffleSplit(n_splits=3, test_size=0.25))", 5,
    ["GridSearchCV", "ShuffleSplit", "model", "param_grid"], some "search",
    .searchConstruct (.shuffleSplit 3 testSizeQuarter none), false⟩,
  ⟨"search.fit(x_train, y=x_dot)", 5, ["search", "x_train", "x_dot"], some "search",
    .fitCall, false⟩,
  ⟨"print best parameters", 5, ["search"], none, .printParams, true⟩,
  ⟨"search.best_estimator_.print()", 5, ["search"], none, .printEquations, true⟩,
  -- cell 6: ElasticNet as the optimizer
  ⟨"from sklearn.linear_model import ElasticNet", 6, [], some "ElasticNet",
    .importLib, false⟩,
  ⟨"model = ps.SINDy(optimizer=ElasticNet(...), t_default=dt)", 6,
    ["ps", "ElasticNet", "dt"], some "model", .modelConstruct .sindy (some dt), false⟩,
  ⟨"model.fit(x_train)", 6, ["model", "x_train"], some "model", .fitCall, false⟩,
  ⟨"model.print()", 6, ["model"], none, .printEquations, true⟩,
  -- cell 7: OrthogonalMatchingPursuit as the optimizer
  ⟨"from sklearn.linear_model import OrthogonalMatchingPursuit", 7, [],
    some "OrthogonalMatchingPursuit", .importLib, false⟩,
  ⟨"model = ps.SINDy(optimizer=OrthogonalMatchingPursuit(...), t_default=dt)", 7,
    ["ps", "OrthogonalMatchingPursuit", "dt"], some "model",
    .modelConstruct .sindy (some dt), false⟩,
  ⟨"model.fit(x_train)", 7, ["model", "x_train"], some "model", .fitCall, false⟩,
  ⟨"model.print()", 7, ["model"], none, .printEquations, true⟩]

/-- A statement kind is an error-handling construct if it catches exceptions
or retries; warning suppression is deliberately not counted here, since the
claims treat it as the one failure-related behaviour that is present. -/
def isErrorHandlingKind : SKind → Bool
  | .tryExcept => true
  | .retryLoop => true
  | _ => false

/-- A statement kind is a concurrency or shared-resource construct if it
creates threads or processes, suspends, locks, or implements a cache or a
protocol. -/
def isConcurrencyKind : SKind → Bool
  | .threadCreate => true
  | .processCreate => true
  | .asyncSuspend => true
  | .lockAcquire => true
  | .cacheOp => true
  | .protocolOp => true
  | _ => false

/-- The warning categories suppressed by the statements of a list, in order. -/
def suppressedCategories (stmts : List Stmt) : List WarnCat :=
  stmts.filterMap fun s =>
    match s.kind with
    | .suppressWarning c => some c
    | _ => none

/-- Whether a splitter partitions the data the same way on every run of the
program.  Modelled from the scikit-learn interface the notebook invokes:
`TimeSeriesSplit` is deterministic (contiguous expanding splits, no
randomness); `ShuffleSplit` draws random permutations and is reproducible
across runs only when its `random_state` argument is set. -/
def splitterSeedFixed : Splitter → Bool
  | .timeSeriesSplit _ => true
  | .shuffleSplit _ _ randomState => randomState.isSome

/-- Every cross-validation search the statement list constructs uses a
splitter whose splits are fixed across runs. -/
def allSearchSeedsFixed (stmts : List Stmt) : Bool :=
  stmts.all fun s =>
    match s.kind with
    | .searchConstruct cv => splitterSeedFixed cv
    | _ => true

/-- The timestep a SINDy-family model ends up with: the `t_default` argument
passed at construction, or the class default `1` when the argument is absent
(both `ps.SINDy` and the notebook's `SINDyCV` subclass declare
`t_default=1`). -/
def effectiveTDefault (tDefaultArg : Option ℚ) : ℚ :=
  tDefaultArg.getD 1

/-- Every model construction in the statement list passes `t_default = dt`. -/
def allModelsPassDt (stmts : List Stmt) : Bool :=
  stmts.all fun s =>
    match s.kind with
    | .modelConstruct _ td => decide (td = some dt)
    | _ => true

/-! ## Sequential dataflow semantics and non-interference checker -/

/-- Update an environment at an optional write target. -/
def updateEnv {V : Type} (env : String → Option V) (w : Option String) (v : V) :
    String → Option V :=
  match w with
  | none => env
  | some name => fun x => if x = name then some v else env x

/-- Run a statement list sequentially from position `i`, environment `env` and
output log `out`.  The value a statement computes is given by the
interpretation `I`, which sees the statement's position and the current values
of the variables the statement reads; a printing statement appends its value
to the output log.  This is the straight-line, single-threaded semantics of
the notebook: statements execute once each, in order. -/
def runFrom {V : Type} (I : Nat → List (Option V) → V) :
    Nat → (String → Option V) → List V → List Stmt → ((String → Option V) × List V)
  | _, env, out, [] => (env, out)
  | i, env, out, s :: rest =>
      let v := I i (s.reads.map env)
      runFrom I (i + 1) (updateEnv env s.writeVar v)
        (if s.prints then out ++ [v] else out) rest

/-- The printed output of running a statement list from an empty environment. -/
def outputs {V : Type} (I : Nat → List (Option V) → V) (stmts : List Stmt) : List V :=
  (runFrom I 0 (fun _ => none) [] stmts).2

/-- Does statement `s` read a variable of the taint set `S`? -/
def readsTainted (S : List String) (s : Stmt) : Bool :=
  s.reads.any fun r => S.contains r

/-- Taint checker comparing two statement lists that may differ (in computed
value or in the statement itself) at position `k` only.  Starting from taint
set `S`, it propagates taint through writes and fails if any possibly-tainted
statement prints.  `checkNI2 k i S stmts stmts2 = true` guarantees (by
`runFrom_ni`) that the two runs print the same output. -/
def checkNI2 (k : Nat) : Nat → List String → List Stmt → List Stmt → Bool
  | _, _, [], [] => true
  | i, S, s :: r, s2 :: r2 =>
      if i = k then
        if s.prints || s2.prints then false
        else checkNI2 k (i + 1) ((S ++ s.writeVar.toList) ++ s2.writeVar.toList) r r2
      else if s = s2 then
        if readsTainted S s then
          if s.prints then false
          else checkNI2 k (i + 1) (S ++ s.writeVar.toList) r r2
        else checkNI2 k (i + 1) S r r2
      else false
  | _, _, _, _ => false

/-- A statement that does nothing: reads nothing, writes nothing, prints
nothing.  Stands for an omitted statement in the non-interference claims. -/
def skipStmt : Stmt :=
  ⟨"omitted", 1, [], none, .noOp, false⟩

/-! ## Phase-ordering checkers -/

/-- Positions of the statements satisfying `p`. -/
def indicesWhere (p : Stmt → Bool) (stmts : List Stmt) : List Nat :=
  (stmts.enum.filter fun e => p e.2).map Prod.fst

/-- Is the statement a model construction? -/
def isModelConstructStmt (s : Stmt) : Bool :=
  match s.kind with
  | .modelConstruct _ _ => true
  | _ => false

/-- Is the statement a data-generation statement of the notebook? -/
def isDataGenStmt (s : Stmt) : Bool :=
  match s.kind with
  | .dataGen => true
  | _ => false

/-- Is the statement a search construction? -/
def isSearchConstructStmt (s : Stmt) : Bool :=
  match s.kind with
  | .searchConstruct _ => true
  | _ => false

/-- Is the statement a fit call (either `search.fit` or `model.fit`)? -/
def isFitCallStmt (s : Stmt) : Bool :=
  match s.kind with
  | .fitCall => true
  | _ => false

/-- Is the statement a derivative precomputation (`model.differentiate`)? -/
def isDifferentiateStmt (s : Stmt) : Bool :=
  match s.kind with
  | .differentiateCall => true
  | _ => false

/-- Every index of `xs` is below every index of `ys`. -/
def allBefore (xs ys : List Nat) : Bool :=
  xs.all fun i => ys.all fun j => i < j

/-- Phase ordering of the notebook: all data generation precedes every model
construction; every search construction is preceded by a model construction
in its own cell; every fit call is preceded by a search construction or a
model construction in its own cell; every printing statement is preceded by a
fit call in its own cell. -/
def checkPhaseOrder (stmts : List Stmt) : Bool :=
  allBefore (indicesWhere isDataGenStmt stmts) (indicesWhere isModelConstructStmt stmts) &&
  (stmts.enum.all fun e =>
    !isSearchConstructStmt e.2 ||
      stmts.enum.any fun d =>
        isModelConstructStmt d.2 && d.2.cell == e.2.cell && d.1 < e.1) &&
  (stmts.enum.all fun e =>
    !isFitCallStmt e.2 ||
      stmts.enum.any fun d =>
        (isSearchConstructStmt d.2 || isModelConstructStmt d.2) &&
          d.2.cell == e.2.cell && d.1 < e.1) &&
  (stmts.enum.all fun e =>
    !e.2.prints ||
      stmts.enum.any fun d =>
        isFitCallStmt d.2 && d.2.cell == e.2.cell && d.1 < e.1)

/-- The derivative target of the ShuffleSplit search is precomputed: the
statement list contains exactly one `differentiate` call; it reads the full
training trajectory and time vector, writes `x_dot`, and precedes every fit
call that consumes `x_dot`. -/
def checkPrecomputedDerivatives (stmts : List Stmt) : Bool :=
  match stmts.enum.filter fun e => isDifferentiateStmt e.2 with
  | [e] =>
      e.2.reads == ["model", "x_train", "t_train"] &&
      e.2.writeVar == some "x_dot" &&
      (stmts.enum.all fun d =>
        !(isFitCallStmt d.2 && d.2.reads.contains "x_dot") || e.1 < d.1)
  | _ => false

/-! ## Exact-rational model of the numerical data

The numerical libraries the notebook calls (numpy, scipy, the pysindy
utilities) are outside this file; they are modelled over exact rationals from
their documented interfaces, as noted on each definition. -/

/-- A three-dimensional state vector. -/
def Vec3 : Type := ℚ × ℚ × ℚ

/-- Componentwise sum of state vectors. -/
def vadd (a b : Vec3) : Vec3 :=
  (a.1 + b.1, a.2.1 + b.2.1, a.2.2 + b.2.2)

/-- Scalar multiple of a state vector. -/
def vsmul (c : ℚ) (a : Vec3) : Vec3 :=
  (c * a.1, c * a.2.1, c * a.2.2)

/-- Modelled from the spec: `pysindy.utils.lorenz`, the right-hand side of
the Lorenz system (not under `src/`), with its default parameters
sigma = 10, rho = 28, beta = 8/3. -/
def lorenz (_t : ℚ) (x : Vec3) : Vec3 :=
  (10 * (x.2.1 - x.1), x.1 * (28 - x.2.2) - x.2.1, x.1 * x.2.1 - (8 / 3) * x.2.2)

/-- The number of samples of `numpy.arange start stop step`: for a nonzero
step, the number of (real) steps of size `step` that fit in `[start, stop)`,
i.e. `⌈(stop - start) / step⌉` clamped at zero. -/
def arangeLen (start stop step : ℚ) : Nat :=
  if step = 0 then 0 else (⌈(stop - start) / step⌉).toNat

/-- Modelled from the interface of `numpy.arange` over exact rationals: the
samples `start, start + step, start + 2 step, ...` below `stop`. -/
def arange (start stop step : ℚ) : List ℚ :=
  (List.range (arangeLen start stop step)).map fun (i : ℕ) => start + (i : ℚ) * step

/-- One explicit integration step per requested evaluation time, starting
from time `t0` and state `y0`. -/
def odeEvalAux (f : ℚ → Vec3 → Vec3) : ℚ → Vec3 → List ℚ → List Vec3
  | _, _, [] => []
  | t0, y0, t :: ts =>
      let y1 := vadd y0 (vsmul (t - t0) (f t0 y0))
      y1 :: odeEvalAux f t y1 ts

/-- Modelled from the interface of `scipy.integrate.solve_ivp` with `t_eval`:
the numerical solution of `y' = f t y` from `y0` at the start of `span`,
sampled at each entry of `tEval` (one state vector per requested time; the
stepping between consecutive evaluation times is modelled by a single
explicit Euler step). -/
def solve_ivp (f : ℚ → Vec3 → Vec3) (span : ℚ × ℚ) (y0 : Vec3) (tEval : List ℚ) :
    List Vec3 :=
  odeEvalAux f span.1 y0 tEval

/-- The notebook's training time vector `t_train = np.arange(0, 10, dt)`. -/
def t_train : List ℚ := arange 0 10 dt

/-- The notebook's `t_train_span = (t_train[0], t_train[-1])`. -/
def t_train_span : ℚ × ℚ := (t_train.headD 0, t_train.getLastD 0)

/-- The notebook's training initial condition `x0_train = [-8, 8, 27]`. -/
def x0_train : Vec3 := (-8, 8, 27)

/-- The notebook's training trajectory. -/
def x_train : List Vec3 := solve_ivp lorenz t_train_span x0_train t_train

/-- The notebook's test time vector `t_test = np.arange(0, 15, dt)`. -/
def t_test : List ℚ := arange 0 15 dt

/-- The notebook's `t_test_span = (t_test[0], t_test[-1])`. -/
def t_test_span : ℚ × ℚ := (t_test.headD 0, t_test.getLastD 0)

/-- The notebook's test initial condition `x0_test = np.array([8, 7, 15])`. -/
def x0_test : Vec3 := (8, 7, 15)

/-- The notebook's test trajectory. -/
def x_test : List Vec3 := solve_ivp lorenz t_test_span x0_test t_test

/-! ## The SINDyCV wrapper and the library operations it delegates to -/

/-- Modelled from the interface of `sklearn.metrics.r2_score`: the
coefficient of determination 1 - SSres / SStot of predictions against true
values, over exact rationals. -/
def r2_score (yTrue yPred : List ℚ) : ℚ :=
  let mean := yTrue.sum / (yTrue.length : ℚ)
  let ssRes := ((yTrue.zip yPred).map fun p => (p.1 - p.2) ^ 2).sum
  let ssTot := (yTrue.map fun v => (v - mean) ^ 2).sum
  1 - ssRes / ssTot

/-- The notebook's `SINDyCV.fit`, from `src`: it forwards its positional `y`
argument as the parent's `x_dot` keyword and returns the parent's result
unchanged.  The parent `SINDy.fit` is abstract: `parentFit` takes the data,
the optional `x_dot`, and the remaining keyword arguments. -/
def SINDyCV.fit {X D K R : Type} (parentFit : X → Option D → K → R)
    (x : X) (y : D) (kwargs : K) : R :=
  parentFit x (some y) kwargs

/-- The notebook's `SINDyCV.score`, from `src`: it forwards `y` as the
parent's `x_dot` and passes `t`, `u`, `multiple_trajectories`, `metric` and
the metric keyword arguments through unchanged.  The parent `SINDy.score` is
abstract in the same way. -/
def SINDyCV.score {X T U D M R MK : Type}
    (parentScore : X → Option T → Option U → Option D → Bool → M → MK → R)
    (x : X) (y : D) (t : Option T) (u : Option U)
    (multiple_trajectories : Bool) (metric : M) (metric_kws : MK) : R :=
  parentScore x t u (some y) multiple_trajectories metric metric_kws

/-- `SINDyCV.score` invoked with its declared default arguments
(`t=None`, `u=None`, `multiple_trajectories=False`, `metric=r2_score`). -/
def SINDyCV.scoreWithDefaults {X : Type} {MK R : Type}
    (parentScore : X → Option ℚ → Option Unit → Option (List ℚ) → Bool →
      (List ℚ → List ℚ → ℚ) → MK → R)
    (x : X) (y : List ℚ) (metric_kws : MK) : R :=
  SINDyCV.score parentScore x y none none false r2_score metric_kws

/-- Row selection `xs[idx]` of a data array by a list of row indices. -/
def selectRows {α : Type} (xs : List α) (idx : List Nat) : List α :=
  idx.filterMap fun i => xs.get? i

/-- The data handed to the estimator on one cross-validation fold. -/
structure FoldCall (α : Type) where
  fitX : List α
  fitY : List α
  scoreX : List α
  scoreY : List α
deriving DecidableEq

/-- Modelled from the interface of `sklearn.model_selection.GridSearchCV`
with data `x`, target `y` and a splitter producing `splits`: for each
(train, test) index split the estimator is fit on the row-slices
`x[train], y[train]` and scored on `x[test], y[test]`. -/
def gridSearchFoldCalls {α : Type} (x y : List α)
    (splits : List (List Nat × List Nat)) : List (FoldCall α) :=
  splits.map fun s => ⟨selectRows x s.1, selectRows y s.1, selectRows x s.2, selectRows y s.2⟩

/-- `sub` is a row-slice of `full`: a selection of rows of `full` by index. -/
def isRowSlice {α : Type} (sub full : List α) : Prop :=
  ∃ idx : List Nat, sub = selectRows full idx

/-- Modelled from the spec: the derivative `SINDy.fit` trains against (the
`SINDy` class is not under `src/`).  When the caller supplies `x_dot` it is
used as given; only when `x_dot` is absent does `fit` differentiate `x`
itself, with timestep `t` falling back to the model's `t_default`. -/
def SINDy.fitDerivative (diffMethod : List Vec3 → ℚ → List Vec3) (t_default : ℚ)
    (x : List Vec3) (x_dot : Option (List Vec3)) (t : Option ℚ) : List Vec3 :=
  match x_dot with
  | some d => d
  | none => diffMethod x (t.getD t_default)

/-- Modelled from the spec: `SINDy.differentiate` (the `SINDy` class is not
under `src/`) applies the model's differentiation method to `x` with timestep
`t`, falling back to `t_default` when `t` is absent. -/
def SINDy.differentiate (diffMethod : List Vec3 → ℚ → List Vec3) (t_default : ℚ)
    (x : List Vec3) (t : Option ℚ) : List Vec3 :=
  diffMethod x (t.getD t_default)

/-! # Helper lemmas -/

theorem odeEvalAux_length (f : ℚ → Vec3 → Vec3) (ts : List ℚ) :
    ∀ (t0 : ℚ) (y0 : Vec3), (odeEvalAux f t0 y0 ts).length = ts.length := by
  induction ts with
  | nil => intro t0 y0; rfl
  | cons t ts ih => intro t0 y0; simp only [odeEvalAux, List.length_cons, ih]

theorem solve_ivp_length (f : ℚ → Vec3 → Vec3) (span : ℚ × ℚ) (y0 : Vec3)
    (tEval : List ℚ) : (solve_ivp f span y0 tEval).length = tEval.length :=
  odeEvalAux_length f tEval span.1 y0

theorem arange_length (start stop step : ℚ) :
    (arange start stop step).length = arangeLen start stop step := by
  rw [arange, List.length_map, List.length_range]

theorem arange_get?_eq (start stop step : ℚ) (i : Nat)
    (h : i < arangeLen start stop step) :
    (arange start stop step).get? i = some (start + (i : ℚ) * step) := by
  rw [arange, List.get?_map, List.get?_range h]
  rfl

theorem arange_consecutive (start stop step : ℚ) (hstep : 0 < step) (i : Nat) (a b : ℚ)
    (ha : (arange start stop step).get? i = some a)
    (hb : (arange start stop step).get? (i + 1) = some b) :
    b - a = step ∧ a < b := by
  have hib : i + 1 < arangeLen start stop step := by
    by_contra hc
    have hnone : (arange start stop step).get? (i + 1) = none := by
      rw [List.get?_eq_none, arange_length]
      omega
    rw [hnone] at hb
    exact Option.noConfusion hb
  have hia : i < arangeLen start stop step := by omega
  rw [arange_get?_eq start stop step i hia] at ha
  rw [arange_get?_eq start stop step (i + 1) hib] at hb
  have ha2 : a = start + (i : ℚ) * step := (Option.some.inj ha).symm
  have hb2 : b = start + ((i : ℚ) + 1) * step := by
    have h2 := (Option.some.inj hb).symm
    push_cast at h2
    exact h2
  have hdiff : b - a = step := by rw [ha2, hb2]; ring
  exact ⟨hdiff, by linarith⟩

theorem dt_eq : dt = 1 / 500 := by
  rw [dt, Rat.mk'_eq_divInt, Rat.divInt_eq_div]
  norm_num

theorem dt_ne_zero : dt ≠ 0 := by
  rw [dt_eq]
  norm_num

theorem arangeLen_train : arangeLen 0 10 dt = 5000 := by
  rw [arangeLen, if_neg dt_ne_zero, dt_eq]
  norm_num
  decide

theorem arangeLen_test : arangeLen 0 15 dt = 7500 := by
  rw [arangeLen, if_neg dt_ne_zero, dt_eq]
  norm_num
  decide

theorem updateEnv_ne {V : Type} (env : String → Option V) (w : Option String) (v : V)
    (x : String) (hx : x ∉ w.toList) : updateEnv env w v x = env x := by
  cases w with
  | none => rfl
  | some n =>
      have hxn : x ≠ n := by simpa using hx
      simp [updateEnv, hxn]

theorem updateEnv_agree_same {V : Type} (env env2 : String → Option V)
    (S : List String) (w : Option String) (v : V)
    (henv : ∀ x, S.contains x = false → env x = env2 x) :
    ∀ x, S.contains x = false → updateEnv env w v x = updateEnv env2 w v x := by
  intro x hx
  cases w with
  | none => exact henv x hx
  | some n =>
      by_cases hxn : x = n
      · simp [updateEnv, hxn]
      · simp [updateEnv, hxn]
        exact henv x hx

theorem contains_false_of_append {S T : List String} {x : String}
    (h : (S ++ T).contains x = false) : S.contains x = false ∧ T.contains x = false := by
  simp only [List.contains, List.elem_eq_mem, decide_eq_false_iff_not, List.mem_append] at h ⊢
  exact ⟨fun hs => h (Or.inl hs), fun ht => h (Or.inr ht)⟩

theorem not_mem_of_contains_false {S : List String} {x : String}
    (h : S.contains x = false) : x ∉ S := by
  simpa only [List.contains, List.elem_eq_mem, decide_eq_false_iff_not] using h

theorem readsTainted_false {S : List String} {s : Stmt}
    (h : readsTainted S s = false) : ∀ r ∈ s.reads, S.contains r = false := by
  simp only [readsTainted, List.any_eq_false, Bool.not_eq_true] at h
  exact h

theorem runFrom_ni {V : Type} (I I2 : Nat → List (Option V) → V) (k : Nat)
    (hI : ∀ j args, j ≠ k → I j args = I2 j args) :
    ∀ (stmts stmts2 : List Stmt) (i : Nat) (S : List String)
      (env env2 : String → Option V) (out : List V),
      checkNI2 k i S stmts stmts2 = true →
      (∀ v, S.contains v = false → env v = env2 v) →
      (runFrom I i env out stmts).2 = (runFrom I2 i env2 out stmts2).2 := by
  intro stmts
  induction stmts with
  | nil =>
      intro stmts2 i S env env2 out hchk henv
      cases stmts2 with
      | nil => rfl
      | cons s2 r2 => simp [checkNI2] at hchk
  | cons s r ih =>
      intro stmts2 i S env env2 out hchk henv
      cases stmts2 with
      | nil => simp [checkNI2] at hchk
      | cons s2 r2 =>
        simp only [checkNI2] at hchk
        by_cases hik : i = k
        · rw [if_pos hik] at hchk
          by_cases hp : (s.prints || s2.prints) = true
          · rw [if_pos hp] at hchk
            exact absurd hchk (by simp)
          · rw [if_neg hp] at hchk
            simp only [Bool.or_eq_true, not_or, Bool.not_eq_true] at hp
            obtain ⟨hp1, hp2⟩ := hp
            simp only [runFrom, hp1, hp2, Bool.false_eq_true, if_false]
            apply ih r2 (i + 1) ((S ++ s.writeVar.toList) ++ s2.writeVar.toList)
            · exact hchk
            · intro x hx
              obtain ⟨hx1, hx2⟩ := contains_false_of_append hx
              obtain ⟨hxS, hxw⟩ := contains_false_of_append hx1
              rw [updateEnv_ne env s.writeVar _ x (not_mem_of_contains_false hxw)]
              rw [updateEnv_ne env2 s2.writeVar _ x (not_mem_of_contains_false hx2)]
              exact henv x hxS
        · rw [if_neg hik] at hchk
          by_cases hss : s = s2
          · rw [if_pos hss] at hchk
            subst hss
            by_cases hrt : readsTainted S s = true
            · rw [if_pos hrt] at hchk
              by_cases hps : s.prints = true
              · rw [if_pos hps] at hchk
                exact absurd hchk (by simp)
              · rw [if_neg hps] at hchk
                have hp1 : s.prints = false := by
                  simpa only [Bool.not_eq_true] using hps
                simp only [runFrom, hp1, Bool.false_eq_true, if_false]
                apply ih r2 (i + 1) (S ++ s.writeVar.toList)
                · exact hchk
                · intro x hx
                  obtain ⟨hxS, hxw⟩ := contains_false_of_append hx
                  rw [updateEnv_ne env s.writeVar _ x (not_mem_of_contains_false hxw)]
                  rw [updateEnv_ne env2 s.writeVar _ x (not_mem_of_contains_false hxw)]
                  exact henv x hxS
            · rw [if_neg hrt] at hchk
              have hrtf : readsTainted S s = false := by
                simpa only [Bool.not_eq_true] using hrt
              have hargs : s.reads.map env = s.reads.map env2 :=
                List.map_congr_left fun r hr => henv r (readsTainted_false hrtf r hr)
              have hv : I2 i (s.reads.map env2) = I i (s.reads.map env) := by
                rw [← hargs]
                exact (hI i (s.reads.map env) hik).symm
              simp only [runFrom, hv]
              apply ih r2 (i + 1) S
              · exact hchk
              · exact updateEnv_agree_same env env2 S s.writeVar _ henv
          · rw [if_neg hss] at hchk
            exact absurd hchk (by simp)

/-! # Claim theorems -/

/-- C1 counterexample: the claim says the printed outputs of every run agree
because "random seeds ... are fixed", but the ShuffleSplit cross-validation
splitter (statement 40) is constructed with `random_state = None`, so not
every source of randomness is seeded: `allSearchSeedsFixed` is false on the
notebook. -/
theorem c1_shuffle_split_unseeded :
    allSearchSeedsFixed notebookStmts = false ∧
    (notebookStmts.get? 40).map Stmt.kind =
      some (SKind.searchConstruct (Splitter.shuffleSplit 3 testSizeQuarter none)) ∧
    splitterSeedFixed (Splitter.shuffleSplit 3 testSizeQuarter none) = false := by
  refine ⟨by decide, by decide, rfl⟩

/-- C1 (amended): every cross-validation search the notebook constructs,
except the ShuffleSplit search of cell 5, uses a splitter whose splits are
fixed across runs (TimeSeriesSplit); the remaining search is built on a
ShuffleSplit with no `random_state`, so its splits are not reproducible
across runs. -/
theorem c1_searches_deterministic_except_shuffle :
    (notebookStmts.enum.all fun e =>
      match e.2.kind with
      | SKind.searchConstruct cv => splitterSeedFixed cv || e.1 == 40
      | _ => true) = true ∧
    (notebookStmts.get? 40).map Stmt.kind =
      some (SKind.searchConstruct (Splitter.shuffleSplit 3 testSizeQuarter none)) := by
  refine ⟨by decide, by decide⟩

/-- C2: every time vector the notebook builds (`t_train = arange(0, 10, dt)`
and `t_test = arange(0, 15, dt)` with `dt = .002`) has strictly increasing,
uniformly spaced timestamps: any two consecutive entries differ by exactly
`dt`. -/
theorem c2_time_vectors_uniform :
    (∀ (i : Nat) (a b : ℚ), t_train.get? i = some a → t_train.get? (i + 1) = some b →
      b - a = dt ∧ a < b) ∧
    (∀ (i : Nat) (a b : ℚ), t_test.get? i = some a → t_test.get? (i + 1) = some b →
      b - a = dt ∧ a < b) := by
  have hdt : 0 < dt := by rw [dt_eq]; norm_num
  exact ⟨fun i a b ha hb => arange_consecutive 0 10 dt hdt i a b ha hb,
         fun i a b ha hb => arange_consecutive 0 15 dt hdt i a b ha hb⟩

/-- Witness for C2 at the first pair of entries of each time vector. -/
theorem c2_time_vectors_uniform_witness :
    (dt - 0 = dt ∧ (0 : ℚ) < dt) ∧ (dt - 0 = dt ∧ (0 : ℚ) < dt) := by
  have h0 : t_train.get? 0 = some 0 := by
    rw [t_train, arange_get?_eq 0 10 dt 0 (by rw [arangeLen_train]; omega)]
    norm_num
  have h1 : t_train.get? 1 = some dt := by
    rw [t_train, arange_get?_eq 0 10 dt 1 (by rw [arangeLen_train]; omega)]
    norm_num
  have h2 : t_test.get? 0 = some 0 := by
    rw [t_test, arange_get?_eq 0 15 dt 0 (by rw [arangeLen_test]; omega)]
    norm_num
  have h3 : t_test.get? 1 = some dt := by
    rw [t_test, arange_get?_eq 0 15 dt 1 (by rw [arangeLen_test]; omega)]
    norm_num
  exact ⟨c2_time_vectors_uniform.1 0 0 dt h0 h1, c2_time_vectors_uniform.2 0 0 dt h2 h3⟩

/-- C3: the SINDyCV wrapper performs no computation of its own.  For every
parent implementation and all arguments, `SINDyCV.fit x y kwargs` returns
exactly the parent fit at `(x, x_dot := y, kwargs)`, `SINDyCV.score` returns
exactly the parent score with `x_dot := y` and the remaining arguments passed
through unchanged, and the declared defaults fill in
`t = none, u = none, multiple_trajectories = false, metric = r2_score`. -/
theorem c3_sindycv_delegates :
    (∀ (X D K R : Type) (parentFit : X → Option D → K → R) (x : X) (y : D) (kwargs : K),
      SINDyCV.fit parentFit x y kwargs = parentFit x (some y) kwargs) ∧
    (∀ (X T U D M R MK : Type)
      (parentScore : X → Option T → Option U → Option D → Bool → M → MK → R)
      (x : X) (y : D) (t : Option T) (u : Option U) (mt : Bool) (metric : M) (mkws : MK),
      SINDyCV.score parentScore x y t u mt metric mkws =
        parentScore x t u (some y) mt metric mkws) ∧
    (∀ (X MK R : Type)
      (parentScore : X → Option ℚ → Option Unit → Option (List ℚ) → Bool →
        (List ℚ → List ℚ → ℚ) → MK → R) (x : X) (y : List ℚ) (mkws : MK),
      SINDyCV.scoreWithDefaults parentScore x y mkws =
        parentScore x none none (some y) false r2_score mkws) :=
  ⟨fun _ _ _ _ _ _ _ _ => rfl,
   fun _ _ _ _ _ _ _ _ _ _ _ _ _ _ _ => rfl,
   fun _ _ _ _ _ _ _ => rfl⟩

/-- C4 counterexample: not every model construction passes `t_default = dt`.
The `SINDyCV()` construction of cell 5 (statement 37) passes no `t_default`
at all, so it receives the class default 1, which differs from `dt`. -/
theorem c4_tdefault_counterexample :
    allModelsPassDt notebookStmts = false ∧
    (notebookStmts.get? 37).map Stmt.kind =
      some (SKind.modelConstruct ModelClass.sindyCV none) ∧
    effectiveTDefault none = 1 ∧ (1 : ℚ) ≠ dt := by
  refine ⟨by decide, by decide, rfl, by rw [dt_eq]; norm_num⟩

/-- C4 (amended): every `ps.SINDy` construction in the notebook passes
`t_default = dt`; the single `SINDyCV` construction passes no `t_default`
and therefore gets the class default 1. -/
theorem c4_tdefault_amended :
    (notebookStmts.all fun s =>
      match s.kind with
      | SKind.modelConstruct ModelClass.sindy td => decide (td = some dt)
      | SKind.modelConstruct ModelClass.sindyCV td => decide (td = none)
      | _ => true) = true ∧
    effectiveTDefault (some dt) = dt ∧ effectiveTDefault none = 1 :=
  ⟨by decide, rfl, rfl⟩

/-- C5: the only failure-related statements of the notebook are exactly two
warning suppressions, for UserWarning and FutureWarning, each occurring once
and both in the setup cell; no statement of the notebook is an exception
catch or a retry. -/
theorem c5_error_handling_only_warning_filters :
    suppressedCategories notebookStmts = [WarnCat.user, WarnCat.future] ∧
    (notebookStmts.all fun s =>
      match s.kind with
      | SKind.suppressWarning _ => s.cell == 0
      | _ => true) = true ∧
    (notebookStmts.all fun s => !isErrorHandlingKind s.kind) = true :=
  ⟨by decide, by decide, by decide⟩

/-- C6: each trajectory is the numerical solution of the Lorenz equation from
its single initial condition, evaluated at the corresponding time vector:
`x_train` integrates from `(-8, 8, 27)` over `t_train` and `x_test` from
`(8, 7, 15)` over `t_test`, and each trajectory holds exactly one
3-dimensional state vector per timestamp. -/
theorem c6_trajectories :
    x_train = solve_ivp lorenz t_train_span x0_train t_train ∧
    x0_train = (-8, 8, 27) ∧
    x_train.length = t_train.length ∧
    x_test = solve_ivp lorenz t_test_span x0_test t_test ∧
    x0_test = (8, 7, 15) ∧
    x_test.length = t_test.length :=
  ⟨rfl, rfl, solve_ivp_length lorenz t_train_span x0_train t_train, rfl, rfl,
   solve_ivp_length lorenz t_test_span x0_test t_test⟩

/-- C7: the notebook's phases occur in order: all data generation precedes
every model construction; every search construction is preceded by a model
construction in its own cell; every fit call is preceded by a search or model
construction in its own cell; and every printing statement is preceded by a
fit call in its own cell. -/
theorem c7_phase_ordering : checkPhaseOrder notebookStmts = true := by decide

/-- C8: no statement of the notebook creates a thread or a process, suspends,
locks, or implements a cache or protocol; the semantics `runFrom` runs the
statements once each, in order, single-threaded. -/
theorem c8_no_concurrency :
    (notebookStmts.all fun s => !isConcurrencyKind s.kind) = true := by decide

/-- C9: the test trajectory is computed but never consumed.  No statement of
a cell after the data cell reads `t_test`, `x0_test` or `x_test`; hence two
runs that differ only in the value computed for `x0_test` (statement 18)
print identical output, and so do a run of the notebook and a run with the
`x_test` computation (statement 19) replaced by a no-op. -/
theorem c9_test_trajectory_unused {V : Type} (I I2 : Nat → List (Option V) → V) :
    ((∀ j args, j ≠ 18 → I j args = I2 j args) →
      outputs I notebookStmts = outputs I2 notebookStmts) ∧
    ((∀ j args, j ≠ 19 → I j args = I2 j args) →
      outputs I notebookStmts = outputs I2 (notebookStmts.set 19 skipStmt)) ∧
    (notebookStmts.all fun s =>
      s.cell ≤ 1 ||
        (["t_test", "x0_test", "x_test"].all fun v => !s.reads.contains v)) = true := by
  refine ⟨?_, ?_, by decide⟩
  · intro hI
    exact runFrom_ni I I2 18 hI notebookStmts notebookStmts 0 [] _ _ [] (by decide)
      (fun v hv => rfl)
  · intro hI
    exact runFrom_ni I I2 19 hI notebookStmts (notebookStmts.set 19 skipStmt) 0 [] _ _ []
      (by decide) (fun v hv => rfl)

/-- Witness for C9 with both runs interpreted by the constant-zero
interpretation. -/
theorem c9_test_trajectory_unused_witness :
    outputs (fun _ _ => (0 : Nat)) notebookStmts =
        outputs (fun _ _ => (0 : Nat)) notebookStmts ∧
    outputs (fun _ _ => (0 : Nat)) notebookStmts =
        outputs (fun _ _ => (0 : Nat)) (notebookStmts.set 19 skipStmt) :=
  ⟨(c9_test_trajectory_unused (fun _ _ => (0 : Nat)) (fun _ _ => (0 : Nat))).1
      (fun _ _ _ => rfl),
   (c9_test_trajectory_unused (fun _ _ => (0 : Nat)) (fun _ _ => (0 : Nat))).2.1
      (fun _ _ _ => rfl)⟩

/-- C10: in the ShuffleSplit search, the derivatives are precomputed once
from the full sequential trajectory before any splitting (exactly one
`differentiate` call, reading `x_train` and `t_train`, writing `x_dot`,
before every fit call that consumes `x_dot`); every cross-validation fold
fits and scores on row-slices of the one precomputed target; and neither
`SINDy.fit` with a supplied `x_dot` nor `SINDy.differentiate` with an
explicit `t` depends on the model's `t_default`. -/
theorem c10_precomputed_derivatives :
    checkPrecomputedDerivatives notebookStmts = true ∧
    (∀ (α : Type) (x y : List α) (splits : List (List Nat × List Nat))
      (c : FoldCall α), c ∈ gridSearchFoldCalls x y splits →
        isRowSlice c.fitY y ∧ isRowSlice c.scoreY y) ∧
    (∀ (diffMethod : List Vec3 → ℚ → List Vec3) (td td2 : ℚ) (x d : List Vec3)
      (t : Option ℚ),
        SINDy.fitDerivative diffMethod td x (some d) t = d ∧
        SINDy.fitDerivative diffMethod td x (some d) t =
          SINDy.fitDerivative diffMethod td2 x (some d) t) ∧
    (∀ (diffMethod : List Vec3 → ℚ → List Vec3) (td td2 : ℚ) (x : List Vec3) (tt : ℚ),
        SINDy.differentiate diffMethod td x (some tt) =
          SINDy.differentiate diffMethod td2 x (some tt)) := by
  refine ⟨by decide, ?_, ?_, ?_⟩
  · intro α x y splits c hc
    simp only [gridSearchFoldCalls, List.mem_map] at hc
    obtain ⟨sp, hsp, rfl⟩ := hc
    exact ⟨⟨sp.1, rfl⟩, ⟨sp.2, rfl⟩⟩
  · intro diffMethod td td2 x d t
    exact ⟨rfl, rfl⟩
  · intro diffMethod td td2 x tt
    rfl

/-- Witness for C10 at one concrete fold of a concrete split. -/
theorem c10_precomputed_derivatives_witness :
    isRowSlice [(5 : ℚ)] [(5 : ℚ)] ∧ isRowSlice [(5 : ℚ)] [(5 : ℚ)] :=
  (c10_precomputed_derivatives).2.1 ℚ [1] [5] [([0], [0])] ⟨[1], [5], [1], [5]⟩
    (by decide)
